import Mathlib

/-!
Shallow embedding of the adaptive Google-search retrieval engine
(src/src/search.ts, src/src/types.ts and the CLI / MCP entry points)
together with proofs about its data model, extraction cascade,
fingerprint synthesis and the headless-to-headed escalation flow.
-/

namespace GoogleSearch

/-! Data model, translated from src/src/types.ts. -/

/-- SearchResult from types.ts: title, link and snippet strings. -/
structure SearchResult where
  title : String
  link : String
  snippet : String
deriving Repr, DecidableEq

/-- SearchResponse from types.ts: the query echoed back plus an ordered result list. -/
structure SearchResponse where
  query : String
  results : List SearchResult
deriving Repr, DecidableEq

/-- CommandOptions from types.ts.  `none` models a field the caller left
undefined, so destructuring defaults apply. -/
structure CommandOptions where
  limit : Option Nat
  timeout : Option Nat
  headless : Option Bool
  stateFile : Option String
  noSaveState : Option Bool
  locale : Option String
deriving Repr, DecidableEq

/-- FingerprintConfig from search.ts lines 10-17.  The two-valued union
types of the source are modelled as strings holding the same literals. -/
structure FingerprintConfig where
  deviceName : String
  locale : String
  timezoneId : String
  colorScheme : String
  reducedMotion : String
  forcedColors : String
deriving Repr, DecidableEq

/-- SavedState from search.ts lines 20-23 (the fingerprint sidecar file). -/
structure SavedState where
  fingerprint : Option FingerprintConfig
  googleDomain : Option String
deriving Repr, DecidableEq

/-- Character-list infix test: does `needle` occur contiguously in `hay`. -/
def charsInfix (needle hay : List Char) : Bool :=
  match hay with
  | [] => needle.isEmpty
  | _ :: t => needle.isPrefixOf hay || charsInfix needle t

/-- JavaScript substring test `hay.includes(needle)`. -/
def strIncludes (hay needle : String) : Bool :=
  charsInfix needle.toList hay.toList

/-- JavaScript prefix test `s.startsWith(pre)`. -/
def strStartsWith (s pre : String) : Bool :=
  pre.toList.isPrefixOf s.toList

/-- JavaScript `a || b` on an optional string: undefined and the empty
string are falsy. -/
def jsOrStr : Option String → String → String
  | none, b => b
  | some s, b => if s = "" then b else s

/-! Fingerprint synthesis, translated from getHostMachineConfig
(search.ts lines 30-102). -/

/-- Host signals read by getHostMachineConfig: process.env.LANG, the
timezone offset in minutes, the wall-clock hour and os.platform(). -/
structure HostSignals where
  envLang : Option String
  timezoneOffset : Int
  hour : Nat
  platform : String
deriving Repr, DecidableEq

/-- getHostMachineConfig from search.ts lines 30-102: locale chain
userLocale, then LANG, then the fixed default; timezone from the
offset table; color scheme from the hour; device name computed from
the platform and then overridden to Desktop Chrome (line 92). -/
def getHostMachineConfig (host : HostSignals) (userLocale : Option String) :
    FingerprintConfig :=
  let systemLocale := jsOrStr userLocale (jsOrStr host.envLang "zh-CN")
  let t := host.timezoneOffset
  let timezoneId :=
    if t ≤ -480 ∧ t > -600 then "Asia/Shanghai"
    else if t ≤ -540 then "Asia/Tokyo"
    else if t ≤ -420 ∧ t > -480 then "Asia/Bangkok"
    else if t ≤ 0 ∧ t > -60 then "Europe/London"
    else if t ≤ 60 ∧ t > 0 then "Europe/Berlin"
    else if t ≤ 180 ∧ t > 60 then "Europe/Budapest"
    else if t ≤ 300 ∧ t > 240 then "America/New_York"
    else "Asia/Shanghai"
  let colorScheme := if host.hour ≥ 19 ∨ host.hour < 7 then "dark" else "light"
  let platformDeviceName :=
    if host.platform = "darwin" then "Desktop Safari"
    else if host.platform = "win32" then "Desktop Edge"
    else if host.platform = "linux" then "Desktop Firefox"
    else "Desktop Chrome"
  -- line 92 discards the platform-based choice: `deviceName = "Desktop Chrome"`
  let deviceName := if platformDeviceName = platformDeviceName then "Desktop Chrome" else platformDeviceName
  { deviceName := deviceName
    locale := systemLocale
    timezoneId := timezoneId
    colorScheme := colorScheme
    reducedMotion := "no-preference"
    forcedColors := "none" }

/-- The fingerprint actually applied to the browser context for one run
(search.ts lines 116-123 and 273-307): the saved fingerprint when the
sidecar file held one, otherwise getHostMachineConfig called with the
locale option, which googleSearch defaults to the literal "hu-HU". -/
def runFingerprint (opts : CommandOptions) (host : HostSignals)
    (saved : SavedState) : FingerprintConfig :=
  match saved.fingerprint with
  | some f => f
  | none => getHostMachineConfig host (some (opts.locale.getD "hu-HU"))

/-! Provider domain selection (search.ts lines 180-186 and 388-398). -/

/-- The fixed candidate list of Google domains (search.ts lines 180-186). -/
def googleDomains : List String :=
  ["https://www.google.com", "https://www.google.co.uk", "https://www.google.ca",
   "https://www.google.com.au", "https://www.google.hu"]

/-- Domain selection (search.ts lines 388-398): reuse the saved domain,
otherwise pick from the fixed list at the random index. -/
def selectedDomain (saved : SavedState) (randIdx : Nat) : String :=
  match saved.googleDomain with
  | some d => d
  | none => googleDomains.getD (randIdx % googleDomains.length) ""

/-! Challenge detection (search.ts lines 432-444, 576-578, 696-699). -/

/-- The fixed blocked-URL substrings (search.ts lines 432-438). -/
def blockedPatterns : List String :=
  ["google.com/sorry/index", "google.com/sorry", "recaptcha", "captcha",
   "unusual traffic"]

/-- Blocked test on a single URL (checkpoints after query submission and
before result waiting, search.ts lines 576-578 and 697-699). -/
def isBlockedUrl (u : String) : Bool :=
  blockedPatterns.any (fun p => strIncludes u p)

/-- Blocked test on the landing page (search.ts lines 440-444): the page
URL or, when the navigation response exists, the response URL. -/
def isBlockedPage (currentUrl : String) (respUrl : Option String) : Bool :=
  blockedPatterns.any (fun p =>
    strIncludes currentUrl p ||
      (match respUrl with
       | some r => strIncludes r p
       | none => false))

/-! Result extraction, translated from search.ts lines 819-934. -/

/-- One container element as seen by a structural strategy: the strings
computed by the in-page callback, i.e. `titleElement ? textContent || ""
: ""`, the anchor href property or "", and the snippet text or "". -/
structure RawItem where
  title : String
  link : String
  snippet : String
deriving Repr, DecidableEq

/-- One anchor element matched by the fallback selector
`a[href^='http']`: the raw href attribute (used by the filter), the
resolved href property (used as the link), the textContent, and the
textContent of the ancestor chain walked by the snippet heuristic. -/
structure Anchor where
  href : String
  resolved : String
  text : String
  ancestors : List String
deriving Repr, DecidableEq

/-- Rendered page content as the extraction code observes it: for each
structural strategy, in cascade order, the container elements its
selector matches (a strategy whose page evaluation throws is observed
as the empty list, because the per-strategy catch just moves on), plus
the anchors the fallback selector matches. -/
structure PageRaw where
  structural : List (List RawItem)
  anchors : List Anchor
deriving Repr, DecidableEq

/-- One structural strategy (search.ts lines 839-879): take the first
`limit` containers, map them to results, and drop results whose title
or link is empty (JS truthiness of `item.title && item.link`). -/
def structuralExtract (items : List RawItem) (limit : Nat) : List SearchResult :=
  ((items.take limit).map
      (fun i => ({ title := i.title, link := i.link, snippet := i.snippet } : SearchResult))).filter
    (fun r => r.title != "" && r.link != "")

/-- The structural cascade (search.ts lines 837-888): try the strategies
in order and stop at the first one yielding at least one result. -/
def cascade (strategies : List (List RawItem)) (limit : Nat) : List SearchResult :=
  match strategies with
  | [] => []
  | items :: rest =>
    let rs := structuralExtract items limit
    if rs.length > 0 then rs else cascade rest limit

/-- The fallback anchor filter (search.ts lines 897-906): href attribute
must start with http and must not contain the three fixed substrings. -/
def fallbackFilter (a : Anchor) : Bool :=
  strStartsWith a.href "http" &&
    !(strIncludes a.href "google.com/") &&
    !(strIncludes a.href "accounts.google") &&
    !(strIncludes a.href "support.google")

/-- The fallback snippet heuristic (search.ts lines 914-923): walk up to
three ancestors, keeping the longest text that differs from the title. -/
def fallbackSnippet (title : String) (ancestors : List String) : String :=
  (ancestors.take 3).foldl
    (fun snippet text =>
      if text.length > snippet.length ∧ text ≠ title then text else snippet)
    ""

/-- Map one surviving anchor to a SearchResult (search.ts lines 908-925). -/
def anchorToResult (a : Anchor) : SearchResult :=
  { title := a.text, link := a.resolved, snippet := fallbackSnippet a.text a.ancestors }

/-- The generic fallback strategy (search.ts lines 891-934): filter the
anchors, cap at `limit`, map to results, and drop empty title or link. -/
def fallbackExtract (anchors : List Anchor) (limit : Nat) : List SearchResult :=
  (((anchors.filter fallbackFilter).take limit).map anchorToResult).filter
    (fun r => r.title != "" && r.link != "")

/-- Full extraction (search.ts lines 835-934): the cascade result, or the
fallback when every structural strategy yielded zero results. -/
def extractResults (page : PageRaw) (limit : Nat) : List SearchResult :=
  let rs := cascade page.structural limit
  if rs.length = 0 then fallbackExtract page.anchors limit else rs

/-! The per-attempt search procedure performSearch (search.ts lines
213-1034) and the googleSearch wrapper (lines 110-128, 1036-1038),
modelled as a function of an oracle world that fixes the outcome of
every browser interaction of one attempt. -/

/-- Observable browser-side actions of one search invocation.  The mode
flag on attemptStart and launch is the headless parameter in force. -/
inductive Ev where
  | attemptStart (headlessMode : Bool) (usedProvidedBrowser : Bool)
  | launch (headlessMode : Bool) (ok : Bool)
  | closeTemp
  | closeBrowser
  | escalated (checkpoint : Nat)
  | waited (checkpoint : Nat) (timeoutMs : Nat) (ok : Bool)
  | saveState (ok : Bool)
  | saveFingerprint (ok : Bool)
deriving Repr, DecidableEq

/-- Oracle for one execution of performSearch: the outcome of every
fallible browser operation and the page content it would observe. -/
structure AttemptWorld where
  launchOk : Bool
  launchErrMsg : String
  tempLaunchOk : Bool
  tempLaunchErrMsg : String
  setupOk : Bool
  setupErrMsg : String
  gotoOk : Bool
  gotoErrMsg : String
  landingUrl : String
  landingResponseUrl : Option String
  navAway1Ok : Bool
  inputFound : Bool
  afterSearchUrl : String
  navAway2Ok : Bool
  selectorFound : Bool
  resultsUrl : String
  navAway3Ok : Bool
  selectorFoundAfterWait : Bool
  page : PageRaw
  saveStateOk : Bool
  saveFingerprintOk : Bool
deriving Repr, DecidableEq

/-- Caller-level configuration after the destructuring defaults of
googleSearch (search.ts lines 116-123). -/
structure RunCfg where
  query : String
  limit : Nat
  timeout : Nat
  noSave : Bool
  provided : Bool
deriving Repr, DecidableEq

/-- Apply the option defaults of search.ts lines 116-123. -/
def mkCfg (q : String) (opts : CommandOptions) (provided : Bool) : RunCfg :=
  { query := q
    limit := opts.limit.getD 10
    timeout := opts.timeout.getD 60000
    noSave := opts.noSaveState.getD false
    provided := provided }

/-- Result of one recursion level of performSearch: a returned response,
an escalation into a headed re-run, or an exception leaving the call. -/
inductive AttemptResult where
  | done (resp : SearchResponse) (evs : List Ev)
  | escalate (evs : List Ev)
  | thrown (msg : String) (evs : List Ev)
deriving Repr, DecidableEq

/-- The event trace carried by an attempt result. -/
def AttemptResult.evs : AttemptResult → List Ev
  | .done _ e => e
  | .escalate e => e
  | .thrown _ e => e

/-- The attempt result with its trace forgotten. -/
inductive AKind where
  | done (resp : SearchResponse)
  | escalate
  | thrown (msg : String)
deriving Repr, DecidableEq

/-- Forget the event trace of an attempt result. -/
def AttemptResult.toKind : AttemptResult → AKind
  | .done r _ => .done r
  | .escalate _ => .escalate
  | .thrown m _ => .thrown m

/-- The synthetic failure response (search.ts lines 1022-1032). -/
def failureResponse (q msg : String) : SearchResponse :=
  { query := q
    results := [{ title := "Search failed", link := ""
                  snippet := "Unable to complete search, error message: " ++ msg }] }

/-- The normal success response (search.ts lines 980-983). -/
def successResponse (cfg : RunCfg) (w : AttemptWorld) : SearchResponse :=
  { query := cfg.query, results := extractResults w.page cfg.limit }

/-- The fixed message of an automation-library timeout error, thrown by
a waitForNavigation call that exceeds its deadline. -/
def navTimeoutMsg : String := "Timeout exceeded while waiting for navigation"

/-- Best-effort persistence events (search.ts lines 938-969 and
987-1011): skipped entirely under noSaveState; when the browser-state
write fails the fingerprint write is never attempted; all failures are
swallowed. -/
def persistEvs (noSave saveOk fingerprintOk : Bool) : List Ev :=
  if noSave then []
  else if saveOk then [Ev.saveState true, Ev.saveFingerprint fingerprintOk]
  else [Ev.saveState false]

/-- Events on leaving the try block, success or failure path alike:
best-effort persistence, then closing the browser unless the caller
supplied it (search.ts lines 938-977 and 987-1019). -/
def exitEvs (noSave provided : Bool) (w : AttemptWorld) : List Ev :=
  persistEvs noSave w.saveStateOk w.saveFingerprintOk ++
    (if provided then [] else [Ev.closeBrowser])

/-- The catch handler of the per-attempt try block (search.ts lines
984-1033): persist best-effort, close the engine-owned browser, and
return the synthetic failure response. -/
def catchExit (cfg : RunCfg) (w : AttemptWorld) (msg : String)
    (evs : List Ev) : AttemptResult :=
  .done (failureResponse cfg.query msg) (evs ++ exitEvs cfg.noSave cfg.provided w)

/-- A blocked checkpoint in headless mode (search.ts lines 446-515,
580-651, 701-772): with a caller-supplied browser the engine launches a
temporary headed browser, closes it, and re-runs the procedure (which
again picks up the caller-supplied browser); a failure of that launch
is caught by the surrounding catch.  With an engine-owned browser it is
closed and the procedure re-runs headed. -/
def escalateExit (cfg : RunCfg) (w : AttemptWorld) (checkpoint : Nat)
    (evs : List Ev) : AttemptResult :=
  if cfg.provided then
    if w.tempLaunchOk then
      .escalate (evs ++ [Ev.escalated checkpoint, Ev.launch false true, Ev.closeTemp])
    else
      catchExit cfg w w.tempLaunchErrMsg
        (evs ++ [Ev.escalated checkpoint, Ev.launch false false])
  else
    .escalate (evs ++ [Ev.escalated checkpoint, Ev.closeBrowser])

/-- Extraction and the success exit (search.ts lines 813-983). -/
def stageSuccess (cfg : RunCfg) (w : AttemptWorld) (evs : List Ev) : AttemptResult :=
  .done (successResponse cfg w) (evs ++ exitEvs cfg.noSave cfg.provided w)

/-- Waiting for the result elements and the pre-extraction checkpoint
(search.ts lines 671-811): found selectors proceed; otherwise a blocked
URL escalates (headless) or waits headed with double timeout, retrying
the selectors after the wait; a non-blocked miss throws. -/
def stageResults (cfg : RunCfg) (hm : Bool) (w : AttemptWorld)
    (evs : List Ev) : AttemptResult :=
  if w.selectorFound then stageSuccess cfg w evs
  else if isBlockedUrl w.resultsUrl then
    if hm then escalateExit cfg w 3 evs
    else if w.navAway3Ok then
      if w.selectorFoundAfterWait then
        stageSuccess cfg w (evs ++ [Ev.waited 3 (2 * cfg.timeout) true])
      else
        catchExit cfg w "Unable to find search result element"
          (evs ++ [Ev.waited 3 (2 * cfg.timeout) true])
    else
      catchExit cfg w navTimeoutMsg (evs ++ [Ev.waited 3 (2 * cfg.timeout) false])
  else
    catchExit cfg w "Unable to find search result element" evs

/-- The post-query checkpoint (search.ts lines 574-669). -/
def stageCp2 (cfg : RunCfg) (hm : Bool) (w : AttemptWorld)
    (evs : List Ev) : AttemptResult :=
  if isBlockedUrl w.afterSearchUrl then
    if hm then escalateExit cfg w 2 evs
    else if w.navAway2Ok then
      stageResults cfg hm w (evs ++ [Ev.waited 2 (2 * cfg.timeout) true])
    else
      catchExit cfg w navTimeoutMsg (evs ++ [Ev.waited 2 (2 * cfg.timeout) false])
  else stageResults cfg hm w evs

/-- Locating the query input and submitting (search.ts lines 532-572):
a missing input throws Unable to find search input. -/
def stageInput (cfg : RunCfg) (hm : Bool) (w : AttemptWorld)
    (evs : List Ev) : AttemptResult :=
  if w.inputFound then stageCp2 cfg hm w evs
  else catchExit cfg w "Unable to find search input" evs

/-- The landing-page checkpoint (search.ts lines 430-530). -/
def stageCp1 (cfg : RunCfg) (hm : Bool) (w : AttemptWorld)
    (evs : List Ev) : AttemptResult :=
  if isBlockedPage w.landingUrl w.landingResponseUrl then
    if hm then escalateExit cfg w 1 evs
    else if w.navAway1Ok then
      stageInput cfg hm w (evs ++ [Ev.waited 1 (2 * cfg.timeout) true])
    else
      catchExit cfg w navTimeoutMsg (evs ++ [Ev.waited 1 (2 * cfg.timeout) false])
  else stageInput cfg hm w evs

/-- Navigation to the provider domain (search.ts lines 400-406), the
first operation inside the try block: a navigation error is caught. -/
def stageGoto (cfg : RunCfg) (hm : Bool) (w : AttemptWorld)
    (evs : List Ev) : AttemptResult :=
  if w.gotoOk then stageCp1 cfg hm w evs
  else catchExit cfg w w.gotoErrMsg evs

/-- One recursion level of performSearch (search.ts lines 213-1034).
The caller-supplied browser is reused whenever present (lines 217-220);
otherwise the engine launches.  Both the launch (line 228) and the
context/page setup — newContext, the two init-script injections and
newPage (lines 333-384), collapsed into the single oracle outcome
`setupOk` because each has the same control-flow consequence — happen
before the try block starts at line 386, so a failure of any of them is
thrown out of the call; the setup failures propagate even when the
browser was caller-supplied. -/
def attempt (cfg : RunCfg) (hm : Bool) (w : AttemptWorld) : AttemptResult :=
  if cfg.provided then
    if w.setupOk then
      stageGoto cfg hm w [Ev.attemptStart hm true]
    else
      .thrown w.setupErrMsg [Ev.attemptStart hm true]
  else if w.launchOk then
    if w.setupOk then
      stageGoto cfg hm w [Ev.attemptStart hm false, Ev.launch hm true]
    else
      .thrown w.setupErrMsg [Ev.attemptStart hm false, Ev.launch hm true]
  else
    .thrown w.launchErrMsg [Ev.attemptStart hm false, Ev.launch hm false]

/-- googleSearch (search.ts lines 110-128 and 1036-1038): run the first
attempt with the headless option (default true).  An escalation re-runs
the procedure headed against the second world through
`return performSearch(false)` (lines 506, 514, 642, 650, 763, 771)
with no await, so the first invocation merely adopts the re-run
promise: its resolution is returned unchanged, and its rejection (a
pre-try launch or setup failure of the re-run) propagates to the
caller of googleSearch without ever triggering the first invocation
catch.  `Except.error` models an exception propagating to the caller
of googleSearch. -/
def googleSearchT (q : String) (opts : CommandOptions) (provided : Bool)
    (w1 w2 : AttemptWorld) : Except String SearchResponse × List Ev :=
  match attempt (mkCfg q opts provided) (opts.headless.getD true) w1 with
  | .done r evs => (Except.ok r, evs)
  | .thrown m evs => (Except.error m, evs)
  | .escalate evs1 =>
    match attempt (mkCfg q opts provided) false w2 with
    | .done r evs2 => (Except.ok r, evs1 ++ evs2)
    | .thrown m evs2 => (Except.error m, evs1 ++ evs2)
    | .escalate evs2 => (Except.ok (failureResponse q navTimeoutMsg), evs1 ++ evs2)

/-! Auxiliary definitions used to state and prove the properties. -/

/-- Is this event an escalation decision (a browser-session re-creation
triggered by a detected challenge while headless). -/
def isEscalated : Ev → Bool
  | .escalated _ => true
  | _ => false

/-- A wait event respects the doubled operation timeout. -/
def waitOkB (t0 : Nat) : Ev → Bool
  | .waited _ t _ => t == 2 * t0
  | _ => true

/-- Trace well-formedness of an attempt result relative to the events
accumulated so far: the attempt only appends events, appends at most
one escalation (none at all when running headed), and every headed wait
it appends uses the doubled operation timeout. -/
def TraceOk (t0 : Nat) (hm : Bool) (evs : List Ev) (res : AttemptResult) : Prop :=
  ∃ rest, res.evs = evs ++ rest
    ∧ List.countP isEscalated rest ≤ 1
    ∧ (hm = false → List.countP isEscalated rest = 0)
    ∧ rest.all (waitOkB t0) = true

/-- The attempt result is not an exception escaping the call. -/
def NoThrow (res : AttemptResult) : Prop := ∀ m e, res ≠ AttemptResult.thrown m e

/-- Every response an attempt can return is either the normal extraction
response or the synthetic failure response. -/
def DoneShape (cfg : RunCfg) (w : AttemptWorld) (res : AttemptResult) : Prop :=
  ∀ r e, res = AttemptResult.done r e →
    r = successResponse cfg w ∨ ∃ m, r = failureResponse cfg.query m

/-- Override only the persistence outcomes of a world. -/
def setSave (w : AttemptWorld) (a b : Bool) : AttemptWorld :=
  { w with saveStateOk := a, saveFingerprintOk := b }

/-- The returned value of googleSearchT as a function of the two attempt
kinds alone. -/
def fstOf (q : String) (k1 k2 : AKind) : Except String SearchResponse :=
  match k1 with
  | .done r => Except.ok r
  | .thrown m => Except.error m
  | .escalate =>
    match k2 with
    | .done r => Except.ok r
    | .thrown m => Except.error m
    | .escalate => Except.ok (failureResponse q navTimeoutMsg)

/-- A fully benign world: every browser operation succeeds, no challenge
is ever shown, and the first structural strategy yields one result. -/
def wBenign : AttemptWorld :=
  { launchOk := true, launchErrMsg := "", tempLaunchOk := true, tempLaunchErrMsg := ""
    setupOk := true, setupErrMsg := ""
    gotoOk := true, gotoErrMsg := "", landingUrl := "https://www.google.hu/"
    landingResponseUrl := none, navAway1Ok := true, inputFound := true
    afterSearchUrl := "https://www.google.hu/search?q=openai", navAway2Ok := true
    selectorFound := true, resultsUrl := "https://www.google.hu/search?q=openai"
    navAway3Ok := true, selectorFoundAfterWait := true
    page := { structural := [[{ title := "OpenAI", link := "https://openai.com/", snippet := "AI" }]]
              anchors := [] }
    saveStateOk := true, saveFingerprintOk := true }

/-- A world whose landing page is the provider challenge interstitial. -/
def wChallenge : AttemptWorld :=
  { wBenign with landingUrl := "https://www.google.com/sorry/index" }

/-- A world where the browser launch itself fails. -/
def wLaunchFail : AttemptWorld :=
  { wBenign with launchOk := false, launchErrMsg := "Failed to launch browser" }

/-- A world where no query input element can be located. -/
def wNoInput : AttemptWorld :=
  { wBenign with inputFound := false }

/-- All options left undefined by the caller. -/
def optsNone : CommandOptions := ⟨none, none, none, none, none, none⟩

/-- Options with the deprecated explicit headless flag set to false. -/
def optsHeaded : CommandOptions := ⟨none, none, some false, none, none, none⟩

/-- An anchor on the google.hu provider domain: its href attribute does
not contain any of the three fixed exclusion substrings. -/
def anchorHu : Anchor :=
  { href := "https://www.google.hu/imghp", resolved := "https://www.google.hu/imghp"
    text := "Images", ancestors := [] }

/-- An anchor to an external result site. -/
def anchorExt : Anchor :=
  { href := "https://example.com/", resolved := "https://example.com/"
    text := "Example", ancestors := [] }

/-- A page whose first structural strategy matches nothing, whose second
yields one result, and whose anchors would also match the fallback. -/
def pageBoth : PageRaw :=
  { structural := [[], [{ title := "T", link := "http://x", snippet := "s" }]]
    anchors := [anchorExt] }

/-- Host signals with an environment-provided locale. -/
def hostLang : HostSignals :=
  { envLang := some "en-US", timezoneOffset := 0, hour := 12, platform := "linux" }

/-! Lemmas about the extraction cascade. -/

lemma structuralExtract_mem {items : List RawItem} {limit : Nat} {r : SearchResult}
    (hr : r ∈ structuralExtract items limit) : r.title ≠ "" ∧ r.link ≠ "" := by
  have hp := List.of_mem_filter hr
  simpa [bne_iff_ne] using hp

lemma structuralExtract_length_le (items : List RawItem) (limit : Nat) :
    (structuralExtract items limit).length ≤ limit := by
  refine le_trans (List.length_filter_le _ _) ?_
  rw [List.length_map]
  exact List.length_take_le _ _

lemma cascade_mem {strategies : List (List RawItem)} {limit : Nat} {r : SearchResult}
    (hr : r ∈ cascade strategies limit) : r.title ≠ "" ∧ r.link ≠ "" := by
  induction strategies with
  | nil => simp [cascade] at hr
  | cons head tail ih =>
    rw [cascade] at hr
    split at hr
    · exact structuralExtract_mem hr
    · exact ih hr

lemma cascade_length_le (strategies : List (List RawItem)) (limit : Nat) :
    (cascade strategies limit).length ≤ limit := by
  induction strategies with
  | nil => simp [cascade]
  | cons head tail ih =>
    rw [cascade]
    split
    · exact structuralExtract_length_le _ _
    · exact ih

lemma cascade_all_nil {strategies : List (List RawItem)} {limit : Nat}
    (h : ∀ l ∈ strategies, structuralExtract l limit = []) :
    cascade strategies limit = [] := by
  induction strategies with
  | nil => rfl
  | cons head tail ih =>
    rw [cascade]
    have hh : structuralExtract head limit = [] := h head (by simp)
    rw [hh]
    simpa using ih fun l hl => h l (by simp [hl])

lemma cascade_first (pre : List (List RawItem)) (items : List RawItem)
    (post : List (List RawItem)) (limit : Nat)
    (hpre : ∀ l ∈ pre, structuralExtract l limit = [])
    (hit : structuralExtract items limit ≠ []) :
    cascade (pre ++ items :: post) limit = structuralExtract items limit := by
  induction pre with
  | nil =>
    rw [List.nil_append, cascade]
    have hlen : (structuralExtract items limit).length > 0 :=
      List.length_pos.mpr hit
    simp [hlen]
  | cons head tail ih =>
    rw [List.cons_append, cascade]
    have hh : structuralExtract head limit = [] := hpre head (by simp)
    rw [hh]
    simpa using ih fun l hl => hpre l (by simp [hl])

lemma fallbackExtract_mem {anchors : List Anchor} {limit : Nat} {r : SearchResult}
    (hr : r ∈ fallbackExtract anchors limit) :
    (r.title ≠ "" ∧ r.link ≠ "") ∧
      ∃ a, a ∈ anchors ∧ fallbackFilter a = true ∧ r = anchorToResult a := by
  constructor
  · have hp := List.of_mem_filter hr
    simpa [bne_iff_ne] using hp
  · have hm := List.mem_of_mem_filter hr
    obtain ⟨a, ha, hra⟩ := List.mem_map.mp hm
    have ha' := List.mem_of_mem_take ha
    exact ⟨a, List.mem_of_mem_filter ha', List.of_mem_filter ha', hra.symm⟩

lemma fallbackExtract_length_le (anchors : List Anchor) (limit : Nat) :
    (fallbackExtract anchors limit).length ≤ limit := by
  refine le_trans (List.length_filter_le _ _) ?_
  rw [List.length_map]
  exact List.length_take_le _ _

lemma extractResults_mem {page : PageRaw} {limit : Nat} {r : SearchResult}
    (hr : r ∈ extractResults page limit) : r.title ≠ "" ∧ r.link ≠ "" := by
  rw [extractResults] at hr
  split at hr
  · exact (fallbackExtract_mem hr).1
  · exact cascade_mem hr

lemma extractResults_length_le (page : PageRaw) (limit : Nat) :
    (extractResults page limit).length ≤ limit := by
  rw [extractResults]
  split
  · exact fallbackExtract_length_le _ _
  · exact cascade_length_le _ _

/-! Lemmas about the escalation flow. -/

@[simp] lemma setSave_launchOk (w : AttemptWorld) (a b : Bool) :
    (setSave w a b).launchOk = w.launchOk := rfl

@[simp] lemma setSave_launchErrMsg (w : AttemptWorld) (a b : Bool) :
    (setSave w a b).launchErrMsg = w.launchErrMsg := rfl

@[simp] lemma setSave_tempLaunchOk (w : AttemptWorld) (a b : Bool) :
    (setSave w a b).tempLaunchOk = w.tempLaunchOk := rfl

@[simp] lemma setSave_tempLaunchErrMsg (w : AttemptWorld) (a b : Bool) :
    (setSave w a b).tempLaunchErrMsg = w.tempLaunchErrMsg := rfl

@[simp] lemma setSave_setupOk (w : AttemptWorld) (a b : Bool) :
    (setSave w a b).setupOk = w.setupOk := rfl

@[simp] lemma setSave_setupErrMsg (w : AttemptWorld) (a b : Bool) :
    (setSave w a b).setupErrMsg = w.setupErrMsg := rfl

@[simp] lemma setSave_gotoOk (w : AttemptWorld) (a b : Bool) :
    (setSave w a b).gotoOk = w.gotoOk := rfl

@[simp] lemma setSave_gotoErrMsg (w : AttemptWorld) (a b : Bool) :
    (setSave w a b).gotoErrMsg = w.gotoErrMsg := rfl

@[simp] lemma setSave_landingUrl (w : AttemptWorld) (a b : Bool) :
    (setSave w a b).landingUrl = w.landingUrl := rfl

@[simp] lemma setSave_landingResponseUrl (w : AttemptWorld) (a b : Bool) :
    (setSave w a b).landingResponseUrl = w.landingResponseUrl := rfl

@[simp] lemma setSave_navAway1Ok (w : AttemptWorld) (a b : Bool) :
    (setSave w a b).navAway1Ok = w.navAway1Ok := rfl

@[simp] lemma setSave_inputFound (w : AttemptWorld) (a b : Bool) :
    (setSave w a b).inputFound = w.inputFound := rfl

@[simp] lemma setSave_afterSearchUrl (w : AttemptWorld) (a b : Bool) :
    (setSave w a b).afterSearchUrl = w.afterSearchUrl := rfl

@[simp] lemma setSave_navAway2Ok (w : AttemptWorld) (a b : Bool) :
    (setSave w a b).navAway2Ok = w.navAway2Ok := rfl

@[simp] lemma setSave_selectorFound (w : AttemptWorld) (a b : Bool) :
    (setSave w a b).selectorFound = w.selectorFound := rfl

@[simp] lemma setSave_resultsUrl (w : AttemptWorld) (a b : Bool) :
    (setSave w a b).resultsUrl = w.resultsUrl := rfl

@[simp] lemma setSave_navAway3Ok (w : AttemptWorld) (a b : Bool) :
    (setSave w a b).navAway3Ok = w.navAway3Ok := rfl

@[simp] lemma setSave_selectorFoundAfterWait (w : AttemptWorld) (a b : Bool) :
    (setSave w a b).selectorFoundAfterWait = w.selectorFoundAfterWait := rfl

@[simp] lemma setSave_page (w : AttemptWorld) (a b : Bool) :
    (setSave w a b).page = w.page := rfl

lemma persistEvs_countP (a b c : Bool) :
    List.countP isEscalated (persistEvs a b c) = 0 := by
  cases a <;> cases b <;> cases c <;> rfl

lemma persistEvs_wait (t0 : Nat) (a b c : Bool) :
    (persistEvs a b c).all (waitOkB t0) = true := by
  cases a <;> cases b <;> cases c <;> rfl

lemma exitEvs_countP (n p : Bool) (w : AttemptWorld) :
    List.countP isEscalated (exitEvs n p w) = 0 := by
  rw [exitEvs, List.countP_append, persistEvs_countP]
  cases p <;> rfl

lemma exitEvs_wait (t0 : Nat) (n p : Bool) (w : AttemptWorld) :
    (exitEvs n p w).all (waitOkB t0) = true := by
  rw [exitEvs, List.all_append, persistEvs_wait]
  cases p <;> rfl

lemma TraceOk.shift {t0 : Nat} {hm : Bool} {evs mid : List Ev} {res : AttemptResult}
    (h : TraceOk t0 hm (evs ++ mid) res)
    (hc : List.countP isEscalated mid = 0)
    (hw : mid.all (waitOkB t0) = true) : TraceOk t0 hm evs res := by
  obtain ⟨rest, h1, h2, h3, h4⟩ := h
  refine ⟨mid ++ rest, ?_, ?_, ?_, ?_⟩
  · rw [h1, List.append_assoc]
  · rw [List.countP_append, hc]
    simpa using h2
  · intro hhm
    rw [List.countP_append, hc, h3 hhm]
  · rw [List.all_append, hw, h4]
    rfl

lemma traceOk_catchExit (cfg : RunCfg) (hm : Bool) (w : AttemptWorld)
    (msg : String) (evs : List Ev) :
    TraceOk cfg.timeout hm evs (catchExit cfg w msg evs) := by
  refine ⟨exitEvs cfg.noSave cfg.provided w, rfl, ?_, ?_, exitEvs_wait _ _ _ _⟩
  · rw [exitEvs_countP]
    exact Nat.zero_le 1
  · intro _
    exact exitEvs_countP _ _ _

lemma traceOk_stageSuccess (cfg : RunCfg) (hm : Bool) (w : AttemptWorld)
    (evs : List Ev) :
    TraceOk cfg.timeout hm evs (stageSuccess cfg w evs) := by
  refine ⟨exitEvs cfg.noSave cfg.provided w, rfl, ?_, ?_, exitEvs_wait _ _ _ _⟩
  · rw [exitEvs_countP]
    exact Nat.zero_le 1
  · intro _
    exact exitEvs_countP _ _ _

lemma traceOk_escalateExit (cfg : RunCfg) (w : AttemptWorld) (cp : Nat)
    (evs : List Ev) :
    TraceOk cfg.timeout true evs (escalateExit cfg w cp evs) := by
  rw [escalateExit]
  split
  · split
    · refine ⟨[Ev.escalated cp, Ev.launch false true, Ev.closeTemp], rfl, ?_, ?_, rfl⟩
      · simp [List.countP_cons, isEscalated]
      · intro h
        exact absurd h (by simp)
    · rw [catchExit]
      refine ⟨[Ev.escalated cp, Ev.launch false false] ++
          exitEvs cfg.noSave cfg.provided w, ?_, ?_, ?_, ?_⟩
      · rw [AttemptResult.evs, List.append_assoc]
      · rw [List.countP_append, exitEvs_countP]
        simp [List.countP_cons, isEscalated]
      · intro h
        exact absurd h (by simp)
      · rw [List.all_append, exitEvs_wait]
        rfl
  · refine ⟨[Ev.escalated cp, Ev.closeBrowser], rfl, ?_, ?_, rfl⟩
    · simp [List.countP_cons, isEscalated]
    · intro h
      exact absurd h (by simp)

lemma traceOk_stageResults (cfg : RunCfg) (hm : Bool) (w : AttemptWorld)
    (evs : List Ev) :
    TraceOk cfg.timeout hm evs (stageResults cfg hm w evs) := by
  rw [stageResults]
  split
  · exact traceOk_stageSuccess cfg hm w evs
  · split
    · split
      · next h =>
        subst h
        exact traceOk_escalateExit cfg w 3 evs
      · split
        · split
          · exact (traceOk_stageSuccess cfg hm w _).shift (by rfl) (by simp [waitOkB])
          · exact (traceOk_catchExit cfg hm w _ _).shift (by rfl) (by simp [waitOkB])
        · exact (traceOk_catchExit cfg hm w _ _).shift (by rfl) (by simp [waitOkB])
    · exact traceOk_catchExit cfg hm w _ evs

lemma traceOk_stageCp2 (cfg : RunCfg) (hm : Bool) (w : AttemptWorld)
    (evs : List Ev) :
    TraceOk cfg.timeout hm evs (stageCp2 cfg hm w evs) := by
  rw [stageCp2]
  split
  · split
    · next h =>
      subst h
      exact traceOk_escalateExit cfg w 2 evs
    · split
      · exact (traceOk_stageResults cfg hm w _).shift (by rfl) (by simp [waitOkB])
      · exact (traceOk_catchExit cfg hm w _ _).shift (by rfl) (by simp [waitOkB])
  · exact traceOk_stageResults cfg hm w evs

lemma traceOk_stageInput (cfg : RunCfg) (hm : Bool) (w : AttemptWorld)
    (evs : List Ev) :
    TraceOk cfg.timeout hm evs (stageInput cfg hm w evs) := by
  rw [stageInput]
  split
  · exact traceOk_stageCp2 cfg hm w evs
  · exact traceOk_catchExit cfg hm w _ evs

lemma traceOk_stageCp1 (cfg : RunCfg) (hm : Bool) (w : AttemptWorld)
    (evs : List Ev) :
    TraceOk cfg.timeout hm evs (stageCp1 cfg hm w evs) := by
  rw [stageCp1]
  split
  · split
    · next h =>
      subst h
      exact traceOk_escalateExit cfg w 1 evs
    · split
      · exact (traceOk_stageInput cfg hm w _).shift (by rfl) (by simp [waitOkB])
      · exact (traceOk_catchExit cfg hm w _ _).shift (by rfl) (by simp [waitOkB])
  · exact traceOk_stageInput cfg hm w evs

lemma traceOk_stageGoto (cfg : RunCfg) (hm : Bool) (w : AttemptWorld)
    (evs : List Ev) :
    TraceOk cfg.timeout hm evs (stageGoto cfg hm w evs) := by
  rw [stageGoto]
  split
  · exact traceOk_stageCp1 cfg hm w evs
  · exact traceOk_catchExit cfg hm w _ evs

lemma attempt_trace (cfg : RunCfg) (hm : Bool) (w : AttemptWorld) :
    TraceOk cfg.timeout hm [Ev.attemptStart hm cfg.provided] (attempt cfg hm w) := by
  rw [attempt]
  split
  · next h =>
    rw [h]
    split
    · exact traceOk_stageGoto cfg hm w _
    · exact ⟨[], rfl, Nat.zero_le 1, fun _ => rfl, rfl⟩
  · split
    · next h1 h2 =>
      have h : cfg.provided = false := by
        cases hc : cfg.provided
        · rfl
        · exact absurd hc h1
      rw [h]
      split
      · exact (traceOk_stageGoto cfg hm w _).shift (by rfl) (by rfl)
      · refine ⟨[Ev.launch hm true], rfl, ?_, fun _ => by rfl, rfl⟩
        rw [show List.countP isEscalated [Ev.launch hm true] = 0 from rfl]
        exact Nat.zero_le 1
    · next h1 h2 =>
      have h : cfg.provided = false := by
        cases hc : cfg.provided
        · rfl
        · exact absurd hc h1
      rw [h]
      refine ⟨[Ev.launch hm false], rfl, ?_, fun _ => by rfl, rfl⟩
      rw [show List.countP isEscalated [Ev.launch hm false] = 0 from rfl]
      exact Nat.zero_le 1

lemma noThrow_catchExit (cfg : RunCfg) (w : AttemptWorld) (msg : String)
    (evs : List Ev) : NoThrow (catchExit cfg w msg evs) := by
  intro m e
  simp [catchExit]

lemma noThrow_stageSuccess (cfg : RunCfg) (w : AttemptWorld) (evs : List Ev) :
    NoThrow (stageSuccess cfg w evs) := by
  intro m e
  simp [stageSuccess]

lemma noThrow_escalateExit (cfg : RunCfg) (w : AttemptWorld) (cp : Nat)
    (evs : List Ev) : NoThrow (escalateExit cfg w cp evs) := by
  intro m e
  rw [escalateExit]
  split
  · split
    · simp
    · exact noThrow_catchExit cfg w _ _ m e
  · simp

lemma noThrow_stageResults (cfg : RunCfg) (hm : Bool) (w : AttemptWorld)
    (evs : List Ev) : NoThrow (stageResults cfg hm w evs) := by
  rw [stageResults]
  split
  · exact noThrow_stageSuccess cfg w evs
  · split
    · split
      · exact noThrow_escalateExit cfg w 3 evs
      · split
        · split
          · exact noThrow_stageSuccess cfg w _
          · exact noThrow_catchExit cfg w _ _
        · exact noThrow_catchExit cfg w _ _
    · exact noThrow_catchExit cfg w _ _

lemma noThrow_stageCp2 (cfg : RunCfg) (hm : Bool) (w : AttemptWorld)
    (evs : List Ev) : NoThrow (stageCp2 cfg hm w evs) := by
  rw [stageCp2]
  split
  · split
    · exact noThrow_escalateExit cfg w 2 evs
    · split
      · exact noThrow_stageResults cfg hm w _
      · exact noThrow_catchExit cfg w _ _
  · exact noThrow_stageResults cfg hm w evs

lemma noThrow_stageInput (cfg : RunCfg) (hm : Bool) (w : AttemptWorld)
    (evs : List Ev) : NoThrow (stageInput cfg hm w evs) := by
  rw [stageInput]
  split
  · exact noThrow_stageCp2 cfg hm w evs
  · exact noThrow_catchExit cfg w _ _

lemma noThrow_stageCp1 (cfg : RunCfg) (hm : Bool) (w : AttemptWorld)
    (evs : List Ev) : NoThrow (stageCp1 cfg hm w evs) := by
  rw [stageCp1]
  split
  · split
    · exact noThrow_escalateExit cfg w 1 evs
    · split
      · exact noThrow_stageInput cfg hm w _
      · exact noThrow_catchExit cfg w _ _
  · exact noThrow_stageInput cfg hm w evs

lemma noThrow_stageGoto (cfg : RunCfg) (hm : Bool) (w : AttemptWorld)
    (evs : List Ev) : NoThrow (stageGoto cfg hm w evs) := by
  rw [stageGoto]
  split
  · exact noThrow_stageCp1 cfg hm w evs
  · exact noThrow_catchExit cfg w _ _

lemma attempt_noThrow (cfg : RunCfg) (hm : Bool) (w : AttemptWorld)
    (hp : cfg.provided = true ∨ w.launchOk = true) (hs : w.setupOk = true) :
    NoThrow (attempt cfg hm w) := by
  rw [attempt]
  by_cases hpv : cfg.provided = true
  · rw [if_pos hpv, if_pos hs]
    exact noThrow_stageGoto cfg hm w _
  · have hl : w.launchOk = true := by
      rcases hp with h | h
      · exact absurd h hpv
      · exact h
    rw [if_neg hpv, if_pos hl, if_pos hs]
    exact noThrow_stageGoto cfg hm w _

lemma doneShape_catchExit (cfg : RunCfg) (w : AttemptWorld) (msg : String)
    (evs : List Ev) : DoneShape cfg w (catchExit cfg w msg evs) := by
  intro r e h
  rw [catchExit] at h
  injection h with h1 h2
  exact Or.inr ⟨msg, h1.symm⟩

lemma doneShape_stageSuccess (cfg : RunCfg) (w : AttemptWorld) (evs : List Ev) :
    DoneShape cfg w (stageSuccess cfg w evs) := by
  intro r e h
  rw [stageSuccess] at h
  injection h with h1 h2
  exact Or.inl h1.symm

lemma doneShape_escalateExit (cfg : RunCfg) (w : AttemptWorld) (cp : Nat)
    (evs : List Ev) : DoneShape cfg w (escalateExit cfg w cp evs) := by
  intro r e h
  rw [escalateExit] at h
  split at h
  · split at h
    · exact absurd h (by simp)
    · exact doneShape_catchExit cfg w _ _ r e h
  · exact absurd h (by simp)

lemma doneShape_stageResults (cfg : RunCfg) (hm : Bool) (w : AttemptWorld)
    (evs : List Ev) : DoneShape cfg w (stageResults cfg hm w evs) := by
  intro r e h
  rw [stageResults] at h
  split at h
  · exact doneShape_stageSuccess cfg w evs r e h
  · split at h
    · split at h
      · exact doneShape_escalateExit cfg w 3 evs r e h
      · split at h
        · split at h
          · exact doneShape_stageSuccess cfg w _ r e h
          · exact doneShape_catchExit cfg w _ _ r e h
        · exact doneShape_catchExit cfg w _ _ r e h
    · exact doneShape_catchExit cfg w _ _ r e h

lemma doneShape_stageCp2 (cfg : RunCfg) (hm : Bool) (w : AttemptWorld)
    (evs : List Ev) : DoneShape cfg w (stageCp2 cfg hm w evs) := by
  intro r e h
  rw [stageCp2] at h
  split at h
  · split at h
    · exact doneShape_escalateExit cfg w 2 evs r e h
    · split at h
      · exact doneShape_stageResults cfg hm w _ r e h
      · exact doneShape_catchExit cfg w _ _ r e h
  · exact doneShape_stageResults cfg hm w evs r e h

lemma doneShape_stageInput (cfg : RunCfg) (hm : Bool) (w : AttemptWorld)
    (evs : List Ev) : DoneShape cfg w (stageInput cfg hm w evs) := by
  intro r e h
  rw [stageInput] at h
  split at h
  · exact doneShape_stageCp2 cfg hm w evs r e h
  · exact doneShape_catchExit cfg w _ _ r e h

lemma doneShape_stageCp1 (cfg : RunCfg) (hm : Bool) (w : AttemptWorld)
    (evs : List Ev) : DoneShape cfg w (stageCp1 cfg hm w evs) := by
  intro r e h
  rw [stageCp1] at h
  split at h
  · split at h
    · exact doneShape_escalateExit cfg w 1 evs r e h
    · split at h
      · exact doneShape_stageInput cfg hm w _ r e h
      · exact doneShape_catchExit cfg w _ _ r e h
  · exact doneShape_stageInput cfg hm w evs r e h

lemma doneShape_stageGoto (cfg : RunCfg) (hm : Bool) (w : AttemptWorld)
    (evs : List Ev) : DoneShape cfg w (stageGoto cfg hm w evs) := by
  intro r e h
  rw [stageGoto] at h
  split at h
  · exact doneShape_stageCp1 cfg hm w evs r e h
  · exact doneShape_catchExit cfg w _ _ r e h

lemma attempt_doneShape (cfg : RunCfg) (hm : Bool) (w : AttemptWorld) :
    DoneShape cfg w (attempt cfg hm w) := by
  intro r e h
  rw [attempt] at h
  split at h
  · split at h
    · exact doneShape_stageGoto cfg hm w _ r e h
    · exact absurd h (by simp)
  · split at h
    · split at h
      · exact doneShape_stageGoto cfg hm w _ r e h
      · exact absurd h (by simp)
    · exact absurd h (by simp)

lemma kind_catchExit (cfg : RunCfg) (w w' : AttemptWorld) (msg : String)
    (evs evs' : List Ev) :
    (catchExit cfg w msg evs).toKind = (catchExit cfg w' msg evs').toKind := rfl

lemma kind_stageSuccess (cfg : RunCfg) (w : AttemptWorld) (a b : Bool)
    (evs evs' : List Ev) :
    (stageSuccess cfg (setSave w a b) evs).toKind = (stageSuccess cfg w evs').toKind := rfl

lemma kind_escalateExit (cfg : RunCfg) (w : AttemptWorld) (a b : Bool) (cp : Nat)
    (evs evs' : List Ev) :
    (escalateExit cfg (setSave w a b) cp evs).toKind =
      (escalateExit cfg w cp evs').toKind := by
  rw [escalateExit, escalateExit, setSave_tempLaunchOk, setSave_tempLaunchErrMsg]
  split
  · split <;> rfl
  · rfl

lemma kind_stageResults (cfg : RunCfg) (hm : Bool) (w : AttemptWorld) (a b : Bool)
    (evs evs' : List Ev) :
    (stageResults cfg hm (setSave w a b) evs).toKind =
      (stageResults cfg hm w evs').toKind := by
  rw [stageResults, stageResults, setSave_selectorFound, setSave_resultsUrl,
    setSave_navAway3Ok, setSave_selectorFoundAfterWait]
  split
  · exact kind_stageSuccess cfg w a b evs evs'
  · split
    · split
      · exact kind_escalateExit cfg w a b 3 evs evs'
      · split
        · split
          · exact kind_stageSuccess cfg w a b _ _
          · exact kind_catchExit cfg _ _ _ _ _
        · exact kind_catchExit cfg _ _ _ _ _
    · exact kind_catchExit cfg _ _ _ _ _

lemma kind_stageCp2 (cfg : RunCfg) (hm : Bool) (w : AttemptWorld) (a b : Bool)
    (evs evs' : List Ev) :
    (stageCp2 cfg hm (setSave w a b) evs).toKind = (stageCp2 cfg hm w evs').toKind := by
  rw [stageCp2, stageCp2, setSave_afterSearchUrl, setSave_navAway2Ok]
  split
  · split
    · exact kind_escalateExit cfg w a b 2 evs evs'
    · split
      · exact kind_stageResults cfg hm w a b _ _
      · exact kind_catchExit cfg _ _ _ _ _
  · exact kind_stageResults cfg hm w a b evs evs'

lemma kind_stageInput (cfg : RunCfg) (hm : Bool) (w : AttemptWorld) (a b : Bool)
    (evs evs' : List Ev) :
    (stageInput cfg hm (setSave w a b) evs).toKind = (stageInput cfg hm w evs').toKind := by
  rw [stageInput, stageInput, setSave_inputFound]
  split
  · exact kind_stageCp2 cfg hm w a b evs evs'
  · exact kind_catchExit cfg _ _ _ _ _

lemma kind_stageCp1 (cfg : RunCfg) (hm : Bool) (w : AttemptWorld) (a b : Bool)
    (evs evs' : List Ev) :
    (stageCp1 cfg hm (setSave w a b) evs).toKind = (stageCp1 cfg hm w evs').toKind := by
  rw [stageCp1, stageCp1, setSave_landingUrl, setSave_landingResponseUrl,
    setSave_navAway1Ok]
  split
  · split
    · exact kind_escalateExit cfg w a b 1 evs evs'
    · split
      · exact kind_stageInput cfg hm w a b _ _
      · exact kind_catchExit cfg _ _ _ _ _
  · exact kind_stageInput cfg hm w a b evs evs'

lemma kind_stageGoto (cfg : RunCfg) (hm : Bool) (w : AttemptWorld) (a b : Bool)
    (evs evs' : List Ev) :
    (stageGoto cfg hm (setSave w a b) evs).toKind = (stageGoto cfg hm w evs').toKind := by
  rw [stageGoto, stageGoto, setSave_gotoOk, setSave_gotoErrMsg]
  split
  · exact kind_stageCp1 cfg hm w a b evs evs'
  · exact kind_catchExit cfg _ _ _ _ _

lemma kind_attempt (cfg : RunCfg) (hm : Bool) (w : AttemptWorld) (a b : Bool) :
    (attempt cfg hm (setSave w a b)).toKind = (attempt cfg hm w).toKind := by
  rw [attempt, attempt, setSave_launchOk, setSave_launchErrMsg, setSave_setupOk,
    setSave_setupErrMsg]
  split
  · split
    · exact kind_stageGoto cfg hm w a b _ _
    · rfl
  · split
    · split
      · exact kind_stageGoto cfg hm w a b _ _
      · rfl
    · rfl

lemma googleSearchT_fst (q : String) (opts : CommandOptions) (provided : Bool)
    (w1 w2 : AttemptWorld) :
    (googleSearchT q opts provided w1 w2).1 =
      fstOf q (attempt (mkCfg q opts provided) (opts.headless.getD true) w1).toKind
        (attempt (mkCfg q opts provided) false w2).toKind := by
  rcases h1 : attempt (mkCfg q opts provided) (opts.headless.getD true) w1
      with ⟨r, ev⟩ | ⟨ev⟩ | ⟨m, ev⟩ <;>
    rcases h2 : attempt (mkCfg q opts provided) false w2
        with ⟨r2, ev2⟩ | ⟨ev2⟩ | ⟨m2, ev2⟩ <;>
      simp [googleSearchT, h1, h2, AttemptResult.toKind, fstOf]

lemma waitBound_of_all {t0 : Nat} {l : List Ev}
    (h : l.all (waitOkB t0) = true) :
    ∀ cp t ok, Ev.waited cp t ok ∈ l → t = 2 * t0 := by
  intro cp t ok hmem
  have hw := List.all_eq_true.mp h _ hmem
  rw [waitOkB] at hw
  simpa using hw

lemma countP_start (hm p : Bool) :
    List.countP isEscalated [Ev.attemptStart hm p] = 0 := rfl

lemma mkCfg_provided (q : String) (opts : CommandOptions) (p : Bool) :
    (mkCfg q opts p).provided = p := rfl

/-! The claims. -/

/-- C5, counterexample: with the provider domain pinned to google.hu in
the session state, the generic fallback still returns an anchor living
on that very domain, because its exclusion list is the fixed substrings
google.com/, accounts.google and support.google, not the selected
domain. -/
theorem c5_counterexample :
    selectedDomain { fingerprint := none, googleDomain := some "https://www.google.hu" } 0 =
      "https://www.google.hu" ∧
    fallbackExtract [anchorHu] 10 =
      [{ title := "Images", link := "https://www.google.hu/imghp", snippet := "" }] ∧
    strIncludes anchorHu.href "https://www.google.hu" = true := by
  refine ⟨rfl, rfl, rfl⟩

/-- C5 (amended): the generic fallback returns only results coming from
anchors whose href attribute starts with http and contains none of the
three fixed substrings google.com/, accounts.google, support.google;
the filter is independent of the selected provider domain. -/
theorem c5_amended (anchors : List Anchor) (limit : Nat) (r : SearchResult)
    (hr : r ∈ fallbackExtract anchors limit) :
    ∃ a, a ∈ anchors ∧ fallbackFilter a = true ∧ r = anchorToResult a :=
  (fallbackExtract_mem hr).2

/-- C5 witness: the amended theorem at a concrete anchor list. -/
theorem c5_amended_witness :
    ∃ a, a ∈ [anchorExt] ∧ fallbackFilter a = true ∧
      ({ title := "Example", link := "https://example.com/", snippet := "" } : SearchResult) =
        anchorToResult a :=
  c5_amended [anchorExt] 10 _ (by decide)

/-- C6, counterexample: the synthetic failure response is a returned
SearchResponse whose single result has an empty link, so not every
result of every returned response has a non-empty link. -/
theorem c6_counterexample :
    (googleSearchT "test" optsNone false wNoInput wBenign).1 =
      Except.ok
        { query := "test"
          results := [{ title := "Search failed", link := ""
                        snippet := "Unable to complete search, error message: Unable to find search input" }] } ∧
    ({ title := "Search failed", link := ""
       snippet := "Unable to complete search, error message: Unable to find search input" } :
        SearchResult).link = "" :=
  ⟨rfl, rfl⟩

/-- C6 (amended): every result produced by the extraction cascade,
structural or fallback, has a non-empty title and a non-empty link; a
result missing either is discarded.  The synthetic Search-failed result
of the failure path is the one exception and carries an empty link. -/
theorem c6_amended (page : PageRaw) (limit : Nat) (r : SearchResult)
    (hr : r ∈ extractResults page limit) : r.title ≠ "" ∧ r.link ≠ "" :=
  extractResults_mem hr

/-- C6 witness: the amended theorem at a concrete page. -/
theorem c6_amended_witness :
    ({ title := "T", link := "http://x", snippet := "s" } : SearchResult).title ≠ "" ∧
    ({ title := "T", link := "http://x", snippet := "s" } : SearchResult).link ≠ "" :=
  c6_amended pageBoth 10 _ (by decide)

/-- C7: for every positive limit, each structural strategy, the generic
fallback, and the full extraction return at most limit results. -/
theorem c7_limit_respected (limit : Nat) (items : List RawItem)
    (anchors : List Anchor) (page : PageRaw) (_hpos : 0 < limit) :
    (structuralExtract items limit).length ≤ limit ∧
    (fallbackExtract anchors limit).length ≤ limit ∧
    (extractResults page limit).length ≤ limit :=
  ⟨structuralExtract_length_le items limit, fallbackExtract_length_le anchors limit,
   extractResults_length_le page limit⟩

/-- C7 witness: the limit bound at a concrete page and limit 3. -/
theorem c7_witness :
    0 < 3 ∧
    ((structuralExtract [{ title := "T", link := "http://x", snippet := "s" }] 3).length ≤ 3 ∧
     (fallbackExtract [anchorExt] 3).length ≤ 3 ∧
     (extractResults pageBoth 3).length ≤ 3) :=
  ⟨by decide,
   c7_limit_respected 3 [{ title := "T", link := "http://x", snippet := "s" }]
     [anchorExt] pageBoth (by decide)⟩

/-- C8: the extraction cascade runs the generic fallback exactly when
every structural strategy yields zero results, and otherwise returns
the output of the first structural strategy, in the fixed order, that
yields at least one result. -/
theorem c8_cascade_order (page : PageRaw) (limit : Nat) :
    ((∀ items ∈ page.structural, structuralExtract items limit = []) →
      extractResults page limit = fallbackExtract page.anchors limit) ∧
    (∀ pre items post, page.structural = pre ++ items :: post →
      (∀ l ∈ pre, structuralExtract l limit = []) →
      structuralExtract items limit ≠ [] →
      extractResults page limit = structuralExtract items limit) := by
  constructor
  · intro h
    rw [extractResults, cascade_all_nil h]
    rfl
  · intro pre items post hsplit hpre hit
    have hcas : cascade page.structural limit = structuralExtract items limit := by
      rw [hsplit]
      exact cascade_first pre items post limit hpre hit
    rw [extractResults, hcas]
    have hlen : (structuralExtract items limit).length ≠ 0 := by
      simpa [List.length_eq_zero] using hit
    simp [hlen]

/-- C8 witness: on a page matching both the second structural strategy
and the fallback pattern, the structural result is returned. -/
theorem c8_witness :
    extractResults pageBoth 10 =
      structuralExtract [{ title := "T", link := "http://x", snippet := "s" }] 10 :=
  (c8_cascade_order pageBoth 10).2 [[]]
    [{ title := "T", link := "http://x", snippet := "s" }] [] rfl (by decide) (by decide)

/-- C10, counterexample: with an environment locale set and no caller
locale hint and no cached fingerprint, the synthesized profile locale
is the fixed default hu-HU, not the environment locale — googleSearch
always passes its defaulted locale option into synthesis, so LANG is
never consulted on this path. -/
theorem c10_counterexample :
    hostLang.envLang = some "en-US" ∧
    (runFingerprint optsNone hostLang { fingerprint := none, googleDomain := none }).locale =
      "hu-HU" ∧
    "hu-HU" ≠ "en-US" := by
  refine ⟨rfl, rfl, by decide⟩

/-- C10 (amended): when the caller supplies no locale hint and no
fingerprint is cached, the synthesized profile locale is the fixed
default hu-HU regardless of the environment locale, because the engine
invokes synthesis with the defaulted locale option. -/
theorem c10_amended (opts : CommandOptions) (host : HostSignals) (saved : SavedState)
    (hl : opts.locale = none) (hf : saved.fingerprint = none) :
    (runFingerprint opts host saved).locale = "hu-HU" := by
  rw [runFingerprint, hf, hl]
  rfl

/-- C10 witness: the amended theorem at concrete host signals with the
environment locale set to en-US. -/
theorem c10_amended_witness :
    optsNone.locale = none ∧
    (runFingerprint optsNone hostLang { fingerprint := none, googleDomain := none }).locale =
      "hu-HU" :=
  ⟨rfl, c10_amended optsNone hostLang { fingerprint := none, googleDomain := none } rfl rfl⟩

/-- C1, counterexample: when no browser is supplied and the initial
launch fails, the exception propagates out of googleSearch instead of
being converted into a SearchResponse — the try block only starts after
the launch.  The same holds for a launch failure of the escalated
headed re-run: the re-run promise is returned without await, so its
rejection bypasses the first invocation catch and also propagates. -/
theorem c1_counterexample :
    (googleSearchT "openai" optsNone false wLaunchFail wBenign).1 =
      Except.error "Failed to launch browser" ∧
    (googleSearchT "openai" optsNone false wChallenge wLaunchFail).1 =
      Except.error "Failed to launch browser" :=
  ⟨rfl, rfl⟩

/-- C1 (amended): every unrecoverable error arising inside the
per-attempt try block — navigation failures, challenge-wait timeouts,
missing input or result elements, a failed temporary headed launch —
is caught and converted, so googleSearch returns a SearchResponse that
is either a normal extraction response or the synthetic response with
the single Search-failed result.  A failure of any pre-try step,
however, propagates as an exception to the caller: the initial browser
launch, the context/page setup of either attempt (even with a
caller-supplied browser), and the escalated re-run pre-try steps,
whose rejection is returned un-awaited and therefore bypasses the
catch.  Formally: when the pre-try steps of both attempts succeed, no
exception escapes. -/
theorem c1_amended (q : String) (opts : CommandOptions) (provided : Bool)
    (w1 w2 : AttemptWorld)
    (hp1 : provided = true ∨ w1.launchOk = true) (hs1 : w1.setupOk = true)
    (hp2 : provided = true ∨ w2.launchOk = true) (hs2 : w2.setupOk = true) :
    ∃ r, (googleSearchT q opts provided w1 w2).1 = Except.ok r ∧
      (r = successResponse (mkCfg q opts provided) w1 ∨
       r = successResponse (mkCfg q opts provided) w2 ∨
       ∃ m, r = failureResponse q m) := by
  have hp1' : (mkCfg q opts provided).provided = true ∨ w1.launchOk = true := hp1
  have hp2' : (mkCfg q opts provided).provided = true ∨ w2.launchOk = true := hp2
  rcases h1 : attempt (mkCfg q opts provided) (opts.headless.getD true) w1
      with ⟨r, ev⟩ | ⟨ev⟩ | ⟨m, ev⟩
  · refine ⟨r, by simp [googleSearchT, h1], ?_⟩
    rcases attempt_doneShape _ _ _ r ev h1 with h | ⟨m, h⟩
    · exact Or.inl h
    · exact Or.inr (Or.inr ⟨m, h⟩)
  · rcases h2 : attempt (mkCfg q opts provided) false w2
        with ⟨r2, ev2⟩ | ⟨ev2⟩ | ⟨m2, ev2⟩
    · refine ⟨r2, by simp [googleSearchT, h1, h2], ?_⟩
      rcases attempt_doneShape _ _ _ r2 ev2 h2 with h | ⟨m, h⟩
      · exact Or.inr (Or.inl h)
      · exact Or.inr (Or.inr ⟨m, h⟩)
    · exact ⟨failureResponse q navTimeoutMsg, by simp [googleSearchT, h1, h2],
        Or.inr (Or.inr ⟨navTimeoutMsg, rfl⟩)⟩
    · exact absurd h2 (attempt_noThrow _ _ _ hp2' hs2 m2 ev2)
  · exact absurd h1 (attempt_noThrow _ _ _ hp1' hs1 m ev)

/-- C1 witness: the amended theorem at a concrete run whose query input
cannot be located, yielding the synthetic failure response. -/
theorem c1_amended_witness :
    ((false = true ∨ wNoInput.launchOk = true) ∧ wNoInput.setupOk = true ∧
     (false = true ∨ wBenign.launchOk = true) ∧ wBenign.setupOk = true) ∧
    ∃ r, (googleSearchT "test" optsNone false wNoInput wBenign).1 = Except.ok r ∧
      (r = successResponse (mkCfg "test" optsNone false) wNoInput ∨
       r = successResponse (mkCfg "test" optsNone false) wBenign ∨
       ∃ m, r = failureResponse "test" m) :=
  ⟨⟨Or.inr rfl, rfl, Or.inr rfl, rfl⟩,
   c1_amended "test" optsNone false wNoInput wBenign (Or.inr rfl) rfl (Or.inr rfl) rfl⟩

/-- C2, evaluated at the failing input: a caller-supplied browser and a
challenge on the headless landing page.  The trace shows the engine
launches a temporary headed browser, closes it at once, and the
subsequent headed-mode attempt again starts on the caller-supplied
browser, so the headed fallback is not performed in the brand-new
session. -/
theorem c2_code_bug :
    (googleSearchT "openai" optsNone true wChallenge wBenign).2 =
      [Ev.attemptStart true true, Ev.escalated 1, Ev.launch false true, Ev.closeTemp,
       Ev.attemptStart false true, Ev.saveState true, Ev.saveFingerprint true] ∧
    Ev.attemptStart false true ∈ (googleSearchT "openai" optsNone true wChallenge wBenign).2 :=
  ⟨rfl, by decide⟩

/-- C3: over all worlds and options, a whole invocation performs at most
one escalation (hence at most one per checkpoint), and every headed
wait for the page to navigate away from the blocked patterns uses
exactly twice the operation timeout. -/
theorem c3_escalation_once (q : String) (opts : CommandOptions) (provided : Bool)
    (w1 w2 : AttemptWorld) :
    List.countP isEscalated (googleSearchT q opts provided w1 w2).2 ≤ 1 ∧
    ∀ cp t ok, Ev.waited cp t ok ∈ (googleSearchT q opts provided w1 w2).2 →
      t = 2 * (opts.timeout.getD 60000) := by
  obtain ⟨rest1, he1, hc1, hz1, hw1⟩ :=
    attempt_trace (mkCfg q opts provided) (opts.headless.getD true) w1
  obtain ⟨rest2, he2, hc2, hz2, hw2⟩ :=
    attempt_trace (mkCfg q opts provided) false w2
  have hb1 : ∀ cp t ok, Ev.waited cp t ok ∈ rest1 → t = 2 * (opts.timeout.getD 60000) :=
    waitBound_of_all hw1
  have hb2 : ∀ cp t ok, Ev.waited cp t ok ∈ rest2 → t = 2 * (opts.timeout.getD 60000) :=
    waitBound_of_all hw2
  rcases h1 : attempt (mkCfg q opts provided) (opts.headless.getD true) w1
      with ⟨r, ev⟩ | ⟨ev⟩ | ⟨m, ev⟩
  · rw [h1] at he1
    rw [AttemptResult.evs] at he1
    have hsnd : (googleSearchT q opts provided w1 w2).2 = ev := by
      simp [googleSearchT, h1]
    constructor
    · rw [hsnd, he1, List.countP_append, countP_start, Nat.zero_add]
      exact hc1
    · intro cp t ok hmem
      rw [hsnd, he1] at hmem
      rcases List.mem_append.mp hmem with h | h
      · simp at h
      · exact hb1 cp t ok h
  · rw [h1] at he1
    rw [AttemptResult.evs] at he1
    have hcev : List.countP isEscalated ev ≤ 1 := by
      rw [he1, List.countP_append, countP_start, Nat.zero_add]
      exact hc1
    have hbev : ∀ cp t ok, Ev.waited cp t ok ∈ ev → t = 2 * (opts.timeout.getD 60000) := by
      intro cp t ok hmem
      rw [he1] at hmem
      rcases List.mem_append.mp hmem with h | h
      · simp at h
      · exact hb1 cp t ok h
    rcases h2 : attempt (mkCfg q opts provided) false w2
        with ⟨r2, ev2⟩ | ⟨ev2⟩ | ⟨m2, ev2⟩
    · rw [h2] at he2
      rw [AttemptResult.evs] at he2
      have hcev2 : List.countP isEscalated ev2 = 0 := by
        rw [he2, List.countP_append, hz2 rfl]
        rfl
      have hsnd : (googleSearchT q opts provided w1 w2).2 = ev ++ ev2 := by
        simp [googleSearchT, h1, h2]
      constructor
      · rw [hsnd, List.countP_append, hcev2]
        simpa using hcev
      · intro cp t ok hmem
        rw [hsnd] at hmem
        rcases List.mem_append.mp hmem with h | h
        · exact hbev cp t ok h
        · rw [he2] at h
          rcases List.mem_append.mp h with h' | h'
          · simp at h'
          · exact hb2 cp t ok h'
    · rw [h2] at he2
      rw [AttemptResult.evs] at he2
      have hcev2 : List.countP isEscalated ev2 = 0 := by
        rw [he2, List.countP_append, hz2 rfl]
        rfl
      have hsnd : (googleSearchT q opts provided w1 w2).2 = ev ++ ev2 := by
        simp [googleSearchT, h1, h2]
      constructor
      · rw [hsnd, List.countP_append, hcev2]
        simpa using hcev
      · intro cp t ok hmem
        rw [hsnd] at hmem
        rcases List.mem_append.mp hmem with h | h
        · exact hbev cp t ok h
        · rw [he2] at h
          rcases List.mem_append.mp h with h' | h'
          · simp at h'
          · exact hb2 cp t ok h'
    · rw [h2] at he2
      rw [AttemptResult.evs] at he2
      have hcev2 : List.countP isEscalated ev2 = 0 := by
        rw [he2, List.countP_append, hz2 rfl]
        rfl
      have hsnd : (googleSearchT q opts provided w1 w2).2 = ev ++ ev2 := by
        simp [googleSearchT, h1, h2]
      constructor
      · rw [hsnd, List.countP_append, hcev2]
        simpa using hcev
      · intro cp t ok hmem
        rw [hsnd] at hmem
        rcases List.mem_append.mp hmem with h | h
        · exact hbev cp t ok h
        · rw [he2] at h
          rcases List.mem_append.mp h with h' | h'
          · simp at h'
          · exact hb2 cp t ok h'
  · rw [h1] at he1
    rw [AttemptResult.evs] at he1
    have hsnd : (googleSearchT q opts provided w1 w2).2 = ev := by
      simp [googleSearchT, h1]
    constructor
    · rw [hsnd, he1, List.countP_append, countP_start, Nat.zero_add]
      exact hc1
    · intro cp t ok hmem
      rw [hsnd, he1] at hmem
      rcases List.mem_append.mp hmem with h | h
      · simp at h
      · exact hb1 cp t ok h

/-- C3 witness: a headed run that meets a challenge waits with exactly
twice the defaulted operation timeout, and the trace of a concrete
invocation contains at most one escalation. -/
theorem c3_witness :
    List.countP isEscalated (googleSearchT "q" optsHeaded false wChallenge wBenign).2 ≤ 1 ∧
    (120000 : Nat) = 2 * (optsHeaded.timeout.getD 60000) :=
  ⟨(c3_escalation_once "q" optsHeaded false wChallenge wBenign).1,
   (c3_escalation_once "q" optsHeaded false wChallenge wBenign).2 1 120000 true (by decide)⟩

/-- C4, counterexample: with the deprecated explicit headless flag set
to false the very first attempt runs headed, so the engine does not
always attempt headless first. -/
theorem c4_counterexample :
    ((googleSearchT "q" optsHeaded false wBenign wBenign).2).head? =
      some (Ev.attemptStart false false) ∧
    optsHeaded.headless = some false :=
  ⟨rfl, rfl⟩

/-- C4 (amended): the first attempt of every invocation runs in the mode
given by the deprecated headless option, which defaults to headless
when the caller leaves it undefined; an explicit headless=false is
honored, not overridden. -/
theorem c4_amended (q : String) (opts : CommandOptions) (provided : Bool)
    (w1 w2 : AttemptWorld) :
    ((googleSearchT q opts provided w1 w2).2).head? =
      some (Ev.attemptStart (opts.headless.getD true) provided) := by
  obtain ⟨rest1, he1, -, -, -⟩ :=
    attempt_trace (mkCfg q opts provided) (opts.headless.getD true) w1
  rcases h1 : attempt (mkCfg q opts provided) (opts.headless.getD true) w1
      with ⟨r, ev⟩ | ⟨ev⟩ | ⟨m, ev⟩
  · rw [h1] at he1
    rw [AttemptResult.evs] at he1
    simp [googleSearchT, h1, he1, mkCfg_provided]
  · rw [h1] at he1
    rw [AttemptResult.evs] at he1
    rcases h2 : attempt (mkCfg q opts provided) false w2
        with ⟨r2, ev2⟩ | ⟨ev2⟩ | ⟨m2, ev2⟩ <;>
      simp [googleSearchT, h1, h2, he1, mkCfg_provided]
  · rw [h1] at he1
    rw [AttemptResult.evs] at he1
    simp [googleSearchT, h1, he1, mkCfg_provided]

/-- C9: the response returned to the caller does not depend on the
outcome of persisting the browser state or the fingerprint sidecar, on
the success path or the failure path — persistence failures are caught
and ignored. -/
theorem c9_persistence_isolated (q : String) (opts : CommandOptions) (provided : Bool)
    (w1 w2 : AttemptWorld) (a b c d : Bool) :
    (googleSearchT q opts provided (setSave w1 a b) (setSave w2 c d)).1 =
    (googleSearchT q opts provided w1 w2).1 := by
  rw [googleSearchT_fst, googleSearchT_fst, kind_attempt, kind_attempt]

end GoogleSearch
